import Mathlib

/-!
Shallow embedding of the `aj-physics-otp-service` request handler.

The repository holds two revisions of one serverless handler that validates a
request `{to_email, otp, type?, app_name?}`, sends an OTP e-mail through
nodemailer and maps the outcome to a JSON response:

* `src/api/send-otp.js` — the revision using the correct constructor name
  `nodemailer.createTransport`; modelled by `handler` below.
* `src/unnamed/part_000` — the revision calling the non-existent
  `nodemailer.createTransporter`, whose construction step therefore throws a
  `TypeError` before any transporter exists; modelled by `handler0` below.

JavaScript values are embedded as follows: a possibly-absent string field
(`undefined`/`null` or a string) becomes `Option String`, with JS truthiness of
such a value given by `strTruthy` (`undefined`, `null` and `""` are falsy);
the two regular expressions are embedded as executable Boolean matchers over
`String.data`; the `await`ed collaborator calls `transporter.verify()` and
`transporter.sendMail(...)` are passed in as `Except MailError _` outcomes;
the observable response is a record of status code, `success`, `message`,
`messageId` and presence of a top-level `timestamp` field (the purely
diagnostic `debug` payloads of the responses are not modelled).  Each handler
also returns the ordered list of calls it made into the nodemailer
collaborator, so that claims about which outbound calls happen are statable.
-/

namespace AjPhysicsOtp

/-- The JavaScript `\s` character class (the characters a `[^\s@]` atom
rejects besides `@`). -/
def jsWhitespace : List Char :=
  [' ', '\t', '\n', '\x0b', '\x0c', '\r', '\u00A0', '\u1680',
   '\u2000', '\u2001', '\u2002', '\u2003', '\u2004', '\u2005', '\u2006',
   '\u2007', '\u2008', '\u2009', '\u200A',
   '\u2028', '\u2029', '\u202F', '\u205F', '\u3000', '\uFEFF']

/-- A character admitted by the `[^\s@]` atom of the e-mail regex. -/
def emailAtomChar (c : Char) : Bool :=
  !(jsWhitespace.contains c) && !(c == '@')

/-- Executable matcher for `/^[^\s@]+@[^\s@]+\.[^\s@]+$/`
(`src/api/send-otp.js` line 54, `src/unnamed/part_000` line 39): the string
decomposes as a non-empty run of `[^\s@]` atoms, `@`, a non-empty run, `.`,
a non-empty run.  The matcher searches for the position `i` of the `@` and a
position `j` of a `.` after it such that every other character is an
`[^\s@]` atom; `emailRegexTest_iff_emailPattern` below proves this equivalent
to the declarative reading of the pattern. -/
def emailRegexTest (s : String) : Bool :=
  (List.range s.data.length).any fun i =>
    (List.range s.data.length).any fun j =>
      (s.data.getD i ' ' == '@') && (s.data.getD j ' ' == '.') &&
      decide (1 ≤ i) && decide (i + 2 ≤ j) && decide (j + 2 ≤ s.data.length) &&
      ((List.range s.data.length).all fun k =>
        (k == i) || emailAtomChar (s.data.getD k ' '))

/-- Declarative reading of `/^[^\s@]+@[^\s@]+\.[^\s@]+$/`: one-or-more
non-whitespace-non-`@` characters, `@`, one-or-more non-whitespace-non-`@`
characters, `.`, one-or-more non-whitespace-non-`@` characters. -/
def emailPattern (s : String) : Prop :=
  ∃ a b c : List Char,
    s.data = a ++ '@' :: (b ++ '.' :: c) ∧
    a ≠ [] ∧ b ≠ [] ∧ c ≠ [] ∧
    ∀ ch ∈ a ++ b ++ c, emailAtomChar ch = true

/-- Executable matcher for `/^\d{6}$/` (`src/api/send-otp.js` line 64,
`src/unnamed/part_000` line 48): exactly six ASCII decimal digits. -/
def otpRegexTest (s : String) : Bool :=
  (s.data.length == 6) && s.data.all fun c => c.isDigit

/-- JS truthiness of a possibly-absent string: `undefined`, `null` and the
empty string are falsy, every other string is truthy. -/
def strTruthy : Option String → Bool
  | none => false
  | some s => !(s == "")

/-- `String.prototype.includes`: `pat` occurs as a contiguous substring. -/
def strIncludes (s pat : String) : Bool :=
  (List.range (s.data.length + 1)).any fun i => pat.data.isPrefixOf (s.data.drop i)

/-- The parsed JSON body of a request; each field is `undefined` or a
string. -/
structure Body where
  to_email : Option String
  otp : Option String
  type : Option String
  app_name : Option String
deriving DecidableEq

/-- An inbound HTTP request: its method, and `req.body` (which the hosting
runtime leaves `undefined`/`null` when the request carries no body). -/
structure Request where
  method : String
  body : Option Body
deriving DecidableEq

/-- The process environment slice the handlers read. -/
structure Env where
  GMAIL_USER : Option String
  GMAIL_PASS : Option String
deriving DecidableEq

/-- An error raised by the nodemailer collaborator (or by the JS runtime):
an optional `code` property and a `message`. -/
structure MailError where
  code : Option String
  message : String
deriving DecidableEq

/-- The resolution value of a successful `transporter.sendMail`. -/
structure SentInfo where
  messageId : String
deriving DecidableEq

/-- The `mailOptions` record passed to `transporter.sendMail`. -/
structure MailOptions where
  from_ : String
  to_ : String
  subject : String
  html : String
  text : String
  priority : String
deriving DecidableEq

/-- The observable response: HTTP status plus the modelled JSON fields
(`success`, `message`, `messageId`, and whether a top-level `timestamp`
field is present). -/
structure Response where
  status : Nat
  success : Option Bool
  message : Option String
  messageId : Option String
  hasTimestamp : Bool
deriving DecidableEq

/-- A call made into the nodemailer collaborator. -/
inductive Effect where
  | createTransportCall : Effect
  | verifyCall : Effect
  | sendCall : MailOptions → Effect
deriving DecidableEq

/-- Whether an effect is an outbound call to the mail collaborator
(`transporter.verify` or `transporter.sendMail`). -/
def isOutbound : Effect → Bool
  | .createTransportCall => false
  | .verifyCall => true
  | .sendCall _ => true

/-- The part of the `htmlContent` template literal of `src/api/send-otp.js`
(lines 134-178) that precedes the `${otp}` splice.  Literal braces of the
CSS are written `\x7b`/`\x7d` and literal apostrophes `\x27`. -/
def htmlBeforeOtp (subject app_name : String) (isPasswordReset : Bool) : String :=
  String.intercalate "\n" [
    "",
    "    <!DOCTYPE html>",
    "    <html lang=\"en\">",
    "    <head>",
    "        <meta charset=\"UTF-8\">",
    "        <meta name=\"viewport\" content=\"width=device-width, initial-scale=1.0\">",
    "        <title>" ++ subject ++ "</title>",
    "        <style>",
    "            body \x7b margin: 0; padding: 0; font-family: \x27Segoe UI\x27, Tahoma, Geneva, Verdana, sans-serif; background-color: #f8f9fa; \x7d",
    "            .container \x7b max-width: 600px; margin: 0 auto; background-color: #ffffff; \x7d",
    "            .header \x7b background: linear-gradient(135deg, #667eea 0%, #764ba2 100%); padding: 40px 20px; text-align: center; color: white; \x7d",
    "            .header h1 \x7b margin: 0; font-size: 32px; font-weight: 700; \x7d",
    "            .header p \x7b margin: 15px 0 0 0; font-size: 18px; opacity: 0.95; \x7d",
    "            .content \x7b padding: 40px 30px; \x7d",
    "            .content h2 \x7b color: #2d3748; margin: 0 0 20px 0; font-size: 24px; font-weight: 600; \x7d",
    "            .content p \x7b color: #4a5568; font-size: 16px; line-height: 1.6; margin: 0 0 20px 0; \x7d",
    "            .otp-container \x7b text-align: center; margin: 35px 0; \x7d",
    "            .otp-box \x7b background: #f7fafc; border: 3px dashed #667eea; border-radius: 12px; padding: 30px 20px; display: inline-block; min-width: 200px; \x7d",
    "            .otp-code \x7b color: #667eea; font-size: 48px; font-weight: bold; margin: 0; letter-spacing: 6px; font-family: \x27Courier New\x27, monospace; \x7d",
    "            .notice \x7b background: #fff3cd; border-left: 4px solid #ffc107; padding: 20px; margin: 25px 0; border-radius: 4px; \x7d",
    "            .notice h3 \x7b color: #744210; margin: 0 0 10px 0; font-size: 16px; \x7d",
    "            .notice ul \x7b color: #744210; margin: 10px 0 0 0; padding-left: 20px; \x7d",
    "            .notice li \x7b margin: 5px 0; \x7d",
    "            .footer \x7b background: #f8f9fa; padding: 25px 20px; text-align: center; border-top: 1px solid #e2e8f0; \x7d",
    "            .footer p \x7b color: #718096; font-size: 14px; margin: 5px 0; \x7d",
    "        </style>",
    "    </head>",
    "    <body>",
    "        <div class=\"container\">",
    "            <div class=\"header\">",
    "                <h1>" ++ app_name ++ "</h1>",
    "                <p>" ++ (if isPasswordReset then "Password Reset" else "Email Verification") ++ "</p>",
    "            </div>",
    "            ",
    "            <div class=\"content\">",
    "                <h2>" ++ (if isPasswordReset then "Reset Your Password" else "Verify Your Email") ++ "</h2>",
    "                <p>",
    "                    " ++ (if isPasswordReset
      then "You requested to reset your password. Please use the verification code below:"
      else "Welcome to AJ Physics Chat! Please verify your email address with the code below:"),
    "                </p>",
    "                ",
    "                <div class=\"otp-container\">",
    "                    <div class=\"otp-box\">",
    "                        <div class=\"otp-code\">"]

/-- The part of the `htmlContent` template literal of `src/api/send-otp.js`
(lines 178-209) that follows the `${otp}` splice. -/
def htmlAfterOtp (app_name : String) (isPasswordReset : Bool) (year : Nat) : String :=
  String.intercalate "\n" [
    "</div>",
    "                    </div>",
    "                </div>",
    "                ",
    "                <p style=\"text-align: center; font-weight: 500;\">",
    "                    Enter this code in the app to " ++ (if isPasswordReset
      then "reset your password" else "activate your account") ++ ".",
    "                </p>",
    "                ",
    "                <div class=\"notice\">",
    "                    <h3>🔒 Security Information</h3>",
    "                    <ul>",
    "                        <li>This code will expire in <strong>5 minutes</strong></li>",
    "                        <li>Never share this code with anyone</li>",
    "                        <li>Only enter this code in the official " ++ app_name ++ " app</li>",
    "                        <li>" ++ (if isPasswordReset
      then "If you didn\x27t request a password reset, please ignore this email"
      else "If you didn\x27t create an account, please ignore this email") ++ "</li>",
    "                    </ul>",
    "                </div>",
    "                ",
    "                <p style=\"color: #718096; font-size: 14px; text-align: center; margin-top: 30px;\">",
    "                    Need help? Contact our support team for assistance.",
    "                </p>",
    "            </div>",
    "            ",
    "            <div class=\"footer\">",
    "                <p>&copy; " ++ toString year ++ " " ++ app_name ++ ". All rights reserved.</p>",
    "                <p style=\"font-size: 12px;\">This is an automated message. Please do not reply.</p>",
    "            </div>",
    "        </div>",
    "    </body>",
    "    </html>"]

/-- The `htmlContent` template of `src/api/send-otp.js` lines 134-209: the
professional HTML e-mail body, with the `otp` spliced verbatim between the
two halves. -/
def htmlContent (subject app_name : String) (isPasswordReset : Bool)
    (otp : String) (year : Nat) : String :=
  htmlBeforeOtp subject app_name isPasswordReset ++ otp ++
    htmlAfterOtp app_name isPasswordReset year

/-- The message composition of `src/api/send-otp.js` lines 127-219: derive
`isPasswordReset` from `type`, build the subject, the HTML body and the
plain-text body, and assemble `mailOptions`.  `year` stands for
`new Date().getFullYear()`. -/
def composeMail (to_email otp type app_name gmailUser : String)
    (year : Nat) : MailOptions :=
  let isPasswordReset := type == "password_reset"
  let subject := app_name ++ " - " ++
    (if isPasswordReset then "Password Reset" else "Email Verification") ++ " Code"
  { from_ := "\"" ++ app_name ++ "\" <" ++ gmailUser ++ ">"
    to_ := to_email
    subject := subject
    html := htmlContent subject app_name isPasswordReset otp year
    text := app_name ++ "\n\n" ++
      (if isPasswordReset then "Password Reset" else "Email Verification") ++
      "\n\nYour verification code: " ++ otp ++
      "\n\nThis code expires in 5 minutes.\n\n" ++
      (if isPasswordReset then "If you didn\x27t request this, ignore this email."
        else "If you didn\x27t sign up, ignore this email.") ++
      "\n\n© " ++ toString year ++ " " ++ app_name
    priority := "high" }

/-- The inner `catch (verifyError)` of `src/api/send-otp.js` lines 105-125:
classify a failed `transporter.verify()` and answer 500. -/
def verifyCatch (verifyError : MailError) : Response :=
  let errorMessage :=
    if verifyError.code == some "EAUTH" then
      "Gmail authentication failed. Please check your app password."
    else if verifyError.code == some "ECONNECTION" then
      "Failed to connect to Gmail servers."
    else "Email service configuration error"
  ⟨500, some false, some errorMessage, none, false⟩

/-- The outer `catch (error)` of `src/api/send-otp.js` lines 241-270:
classify the error into a message, then answer with `res.status(500)`
unconditionally (the timestamp sits only inside the unmodelled `debug`
payload, so `hasTimestamp := false`). -/
def catchHandler (error : MailError) : Response :=
  let errorMessage :=
    if error.code == some "EAUTH" then
      "Gmail authentication failed. Please check your app password."
    else if error.code == some "ECONNECTION" then
      "Failed to connect to Gmail servers."
    else if error.code == some "EMESSAGE" then
      "Invalid email message format."
    else if strIncludes error.message "Invalid login" then
      "Gmail credentials are invalid."
    else "Failed to send verification code"
  ⟨500, some false, some errorMessage, none, false⟩

/-- The outer `catch (error)` of `src/unnamed/part_000` lines 220-241:
classify the error into a message and a status code (`EMESSAGE` lowers the
status to 400), and answer with a top-level `timestamp`. -/
def catchHandler0 (error : MailError) : Response :=
  let classified : String × Nat :=
    if error.code == some "EAUTH" then
      ("Email authentication failed. Please check credentials.", 500)
    else if error.code == some "ECONNECTION" then
      ("Failed to connect to email service. Please try again.", 500)
    else if error.code == some "EMESSAGE" then
      ("Invalid email message format.", 400)
    else ("Failed to send verification code", 500)
  ⟨classified.2, some false, some classified.1, none, true⟩

/-- The `TypeError` thrown by
`const { to_email, otp, ... } = req.body` when `req.body` is
`undefined`/`null` (a request with no body): a runtime error with no `code`
property, caught by the outer catch. -/
def destructureError : MailError :=
  ⟨none, "Cannot destructure property \x27to_email\x27 of \x27req.body\x27 as it is undefined."⟩

/-- The `TypeError` thrown in `src/unnamed/part_000` line 65 by calling
`nodemailer.createTransporter(...)`: the nodemailer module exports
`createTransport` but no `createTransporter`, so the property access yields
`undefined` and the call throws (again with no `code` property). -/
def createTransporterError : MailError :=
  ⟨none, "nodemailer.createTransporter is not a function"⟩

/-- The handler of `src/api/send-otp.js` (lines 4-271).  Besides the request
and environment it takes the year used for `new Date().getFullYear()` and
the outcomes of the two `await`ed collaborator calls; it returns the
response together with the ordered list of nodemailer calls it performed. -/
def handler (req : Request) (env : Env) (year : Nat)
    (verifyResult : Except MailError Unit)
    (sendResult : Except MailError SentInfo) : Response × List Effect :=
  if req.method == "OPTIONS" then
    (⟨200, none, some "CORS preflight successful", none, false⟩, [])
  else if !(req.method == "POST") then
    (⟨405, some false, some "Method not allowed. Use POST.", none, false⟩, [])
  else
    match req.body with
    | none => (catchHandler destructureError, [])
    | some body =>
      if !(strTruthy body.to_email) || !(strTruthy body.otp) then
        (⟨400, some false, some "Email and OTP are required fields", none, false⟩, [])
      else if !(emailRegexTest (body.to_email.getD "")) then
        (⟨400, some false, some "Invalid email format", none, false⟩, [])
      else if !(otpRegexTest (body.otp.getD "")) then
        (⟨400, some false, some "OTP must be exactly 6 digits", none, false⟩, [])
      else if !(strTruthy env.GMAIL_USER) || !(strTruthy env.GMAIL_PASS) then
        (⟨500, some false, some "Server configuration error - missing credentials", none, false⟩, [])
      else
        match verifyResult with
        | .error verifyError =>
          (verifyCatch verifyError, [.createTransportCall, .verifyCall])
        | .ok _ =>
          match sendResult with
          | .ok info =>
            (⟨200, some true, some "OTP sent successfully", some info.messageId, true⟩,
             [.createTransportCall, .verifyCall,
              .sendCall (composeMail (body.to_email.getD "") (body.otp.getD "")
                (body.type.getD "verification") (body.app_name.getD "AJ Physics Chat")
                (env.GMAIL_USER.getD "") year)])
          | .error error =>
            (catchHandler error,
             [.createTransportCall, .verifyCall,
              .sendCall (composeMail (body.to_email.getD "") (body.otp.getD "")
                (body.type.getD "verification") (body.app_name.getD "AJ Physics Chat")
                (env.GMAIL_USER.getD "") year)])

/-- The handler of `src/unnamed/part_000` (lines 4-243).  Validation and the
credential check mirror `handler` (with a shorter configuration-error
message); then line 65 calls the non-existent `nodemailer.createTransporter`,
which throws before any transporter is constructed, so the message
composition (lines 89-205), `transporter.verify()` and
`transporter.sendMail(...)` of that revision are unreachable and the outer
catch answers every surviving request. -/
def handler0 (req : Request) (env : Env) : Response × List Effect :=
  if req.method == "OPTIONS" then
    (⟨200, none, some "CORS preflight successful", none, false⟩, [])
  else if !(req.method == "POST") then
    (⟨405, some false, some "Method not allowed. Use POST.", none, false⟩, [])
  else
    match req.body with
    | none => (catchHandler0 destructureError, [])
    | some body =>
      if !(strTruthy body.to_email) || !(strTruthy body.otp) then
        (⟨400, some false, some "Email and OTP are required fields", none, false⟩, [])
      else if !(emailRegexTest (body.to_email.getD "")) then
        (⟨400, some false, some "Invalid email format", none, false⟩, [])
      else if !(otpRegexTest (body.otp.getD "")) then
        (⟨400, some false, some "OTP must be exactly 6 digits", none, false⟩, [])
      else if !(strTruthy env.GMAIL_USER) || !(strTruthy env.GMAIL_PASS) then
        (⟨500, some false, some "Server configuration error", none, false⟩, [])
      else
        (catchHandler0 createTransporterError, [])

/-- A representative valid request body. -/
def sampleBody : Body := ⟨some "user@example.com", some "123456", none, none⟩

/-- A representative valid `POST` request. -/
def sampleReq : Request := ⟨"POST", some sampleBody⟩

/-- A representative environment with both credentials configured. -/
def sampleEnv : Env := ⟨some "sender@gmail.com", some "app-password"⟩

/-- The `mailOptions` the handler composes for `sampleReq`/`sampleEnv` in 2025. -/
def sampleMail : MailOptions :=
  composeMail "user@example.com" "123456" "verification" "AJ Physics Chat"
    "sender@gmail.com" 2025

/-- A `sendMail` rejection carrying the nodemailer code `EMESSAGE`. -/
def emessageError : MailError := ⟨some "EMESSAGE", "Message failed"⟩

/-- `List.getD` agrees with indexing when the index is in range. -/
lemma getD_eq_getElem_of_lt (l : List Char) (i : Nat) (d : Char) (h : i < l.length) :
    l.getD i d = l[i] := by
  simp [List.getD_eq_getElem?_getD, List.getElem?_eq_getElem h]

/-- The executable matcher `emailRegexTest` accepts exactly the strings of
the declarative shape `emailPattern`: one-or-more `[^\s@]` characters, `@`,
one-or-more, `.`, one-or-more. -/
theorem emailRegexTest_iff_emailPattern (s : String) :
    emailRegexTest s = true ↔ emailPattern s := by
  constructor
  · intro h
    simp only [emailRegexTest, List.any_eq_true, List.mem_range, Bool.and_eq_true,
      beq_iff_eq, decide_eq_true_eq, List.all_eq_true, Bool.or_eq_true] at h
    obtain ⟨i, hi, j, hj, ⟨⟨⟨⟨hat, hdot⟩, h1⟩, h2⟩, h3⟩, hall⟩ := h
    have hin : i < s.data.length := by omega
    have hjn : j < s.data.length := by omega
    rw [getD_eq_getElem_of_lt _ _ _ hin] at hat
    rw [getD_eq_getElem_of_lt _ _ _ hjn] at hdot
    have hall' : ∀ (k : Nat) (hk : k < s.data.length), k ≠ i →
        emailAtomChar (s.data.get ⟨k, hk⟩) = true := by
      intro k hk hki
      rcases hall k hk with h | h
      · exact absurd h hki
      · rw [List.get_eq_getElem]
        rwa [getD_eq_getElem_of_lt _ _ _ hk] at h
    refine ⟨s.data.take i, (s.data.drop (i+1)).take (j - (i+1)), s.data.drop (j+1),
      ?_, ?_, ?_, ?_, ?_⟩
    · have e2 : (s.data.drop (i+1)).drop (j - (i+1)) = s.data.drop j := by
        rw [List.drop_drop]
        have : i + 1 + (j - (i+1)) = j := by omega
        rw [this]
      have e3 : s.data.drop j = '.' :: s.data.drop (j+1) := by
        rw [List.drop_eq_getElem_cons hjn, hdot]
      calc s.data = s.data.take i ++ s.data.drop i := (List.take_append_drop _ _).symm
        _ = s.data.take i ++ '@' :: s.data.drop (i+1) := by
            rw [List.drop_eq_getElem_cons hin, hat]
        _ = s.data.take i ++ '@' ::
              ((s.data.drop (i+1)).take (j - (i+1)) ++ '.' :: s.data.drop (j+1)) := by
            rw [← e3, ← e2, List.take_append_drop]
    · exact List.length_pos.mp (by rw [List.length_take]; omega)
    · exact List.length_pos.mp (by rw [List.length_take, List.length_drop]; omega)
    · exact List.length_pos.mp (by rw [List.length_drop]; omega)
    · intro ch hch
      rw [List.mem_append, List.mem_append] at hch
      rcases hch with (hch | hch) | hch
      · obtain ⟨m, hm, rfl⟩ := List.mem_iff_getElem.mp hch
        have hmi : m < i := by
          rw [List.length_take] at hm
          omega
        rw [List.getElem_take]
        have hx := hall' m (by omega) (by omega)
        rwa [List.get_eq_getElem] at hx
      · obtain ⟨m, hm, rfl⟩ := List.mem_iff_getElem.mp hch
        have hmb : m < j - (i+1) := by
          rw [List.length_take, List.length_drop] at hm
          omega
        rw [List.getElem_take, List.getElem_drop]
        have hx := hall' (i+1+m) (by omega) (by omega)
        rwa [List.get_eq_getElem] at hx
      · obtain ⟨m, hm, rfl⟩ := List.mem_iff_getElem.mp hch
        have hmc : m < s.data.length - (j+1) := by
          rw [List.length_drop] at hm
          omega
        rw [List.getElem_drop]
        have hx := hall' (j+1+m) (by omega) (by omega)
        rwa [List.get_eq_getElem] at hx
  · rintro ⟨a, b, c, hs, ha, hb, hc, hatom⟩
    have ha1 : 1 ≤ a.length := List.length_pos.mpr ha
    have hb1 : 1 ≤ b.length := List.length_pos.mpr hb
    have hc1 : 1 ≤ c.length := List.length_pos.mpr hc
    have hn : s.data.length = a.length + b.length + c.length + 2 := by
      rw [hs]
      simp [List.length_append]
      omega
    have hs' : s.data = (a ++ '@' :: b) ++ '.' :: c := by
      rw [hs]
      simp
    have hab : (a ++ '@' :: b).length = a.length + 1 + b.length := by
      simp
      omega
    have hmem : ∀ ch, ch ∈ a ∨ ch ∈ b ∨ ch ∈ c → emailAtomChar ch = true := by
      intro ch hch
      apply hatom
      rw [List.mem_append, List.mem_append]
      tauto
    simp only [emailRegexTest, List.any_eq_true, List.mem_range, Bool.and_eq_true,
      beq_iff_eq, decide_eq_true_eq, List.all_eq_true, Bool.or_eq_true]
    refine ⟨a.length, by omega, a.length + 1 + b.length, by omega,
      ⟨⟨⟨⟨?_, ?_⟩, by omega⟩, by omega⟩, by omega⟩, ?_⟩
    · rw [hs, List.getD_append_right _ _ _ _ (le_refl _), Nat.sub_self, List.getD_cons_zero]
    · rw [hs', List.getD_append_right _ _ _ _ (by omega), hab, Nat.sub_self, List.getD_cons_zero]
    · intro k hk
      by_cases hki : k = a.length
      · exact Or.inl hki
      right
      rcases Nat.lt_or_ge k a.length with hlt | hge
      · rw [hs, List.getD_append _ _ _ _ (by omega),
          getD_eq_getElem_of_lt _ _ _ (by omega)]
        exact hmem _ (Or.inl (List.getElem_mem _))
      · rcases Nat.lt_or_ge k (a.length + 1 + b.length) with hltj | hgej
        · -- inside b
          rw [hs, List.getD_append_right _ _ _ _ (by omega)]
          have : k - a.length = (k - a.length - 1) + 1 := by omega
          rw [this, List.getD_cons_succ,
            List.getD_append _ _ _ _ (by omega),
            getD_eq_getElem_of_lt _ _ _ (by omega)]
          exact hmem _ (Or.inr (Or.inl (List.getElem_mem _)))
        · by_cases hkj : k = a.length + 1 + b.length
          · rw [hkj, hs', List.getD_append_right _ _ _ _ (by omega), hab, Nat.sub_self,
              List.getD_cons_zero]
            decide
          · -- inside c
            rw [hs', List.getD_append_right _ _ _ _ (by rw [hab]; omega), hab]
            have : k - (a.length + 1 + b.length) = (k - (a.length + 1 + b.length) - 1) + 1 := by
              omega
            rw [this, List.getD_cons_succ,
              getD_eq_getElem_of_lt _ _ _ (by rw [hn] at hk; omega)]
            exact hmem _ (Or.inr (Or.inr (List.getElem_mem _)))

lemma strTruthy_iff_getD (o : Option String) : strTruthy o = true ↔ o.getD "" ≠ "" := by
  cases o <;> simp [strTruthy]

lemma emailRegexTest_empty : emailRegexTest "" = false := by decide

lemma otpRegexTest_empty : otpRegexTest "" = false := by decide

lemma otpRegexTest_iff (s : String) :
    otpRegexTest s = true ↔ s.data.length = 6 ∧ ∀ c ∈ s.data, c.isDigit = true := by
  simp [otpRegexTest, List.all_eq_true]

lemma verifyCatch_status (ve : MailError) : (verifyCatch ve).status = 500 := rfl

lemma catchHandler_status (e : MailError) : (catchHandler e).status = 500 := rfl

lemma catchHandler_success (e : MailError) : (catchHandler e).success = some false := rfl

lemma catchHandler0_success (e : MailError) : (catchHandler0 e).success = some false := rfl

lemma verifyCatch_message_cases (ve : MailError) :
    (verifyCatch ve).message = some "Gmail authentication failed. Please check your app password." ∨
    (verifyCatch ve).message = some "Failed to connect to Gmail servers." ∨
    (verifyCatch ve).message = some "Email service configuration error" := by
  by_cases h1 : (ve.code == some "EAUTH") = true
  · simp [verifyCatch, h1]
  · by_cases h2 : (ve.code == some "ECONNECTION") = true <;> simp [verifyCatch, h1, h2]

lemma catchHandler_message_cases (e : MailError) :
    (catchHandler e).message = some "Gmail authentication failed. Please check your app password." ∨
    (catchHandler e).message = some "Failed to connect to Gmail servers." ∨
    (catchHandler e).message = some "Invalid email message format." ∨
    (catchHandler e).message = some "Gmail credentials are invalid." ∨
    (catchHandler e).message = some "Failed to send verification code" := by
  by_cases h1 : (e.code == some "EAUTH") = true
  · simp [catchHandler, h1]
  · by_cases h2 : (e.code == some "ECONNECTION") = true
    · simp [catchHandler, h1, h2]
    · by_cases h3 : (e.code == some "EMESSAGE") = true
      · simp [catchHandler, h1, h2, h3]
      · by_cases h4 : strIncludes e.message "Invalid login" = true <;>
          simp [catchHandler, h1, h2, h3, h4]

lemma catchHandler0_cases (e : MailError) :
    catchHandler0 e = ⟨500, some false, some "Email authentication failed. Please check credentials.", none, true⟩ ∨
    catchHandler0 e = ⟨500, some false, some "Failed to connect to email service. Please try again.", none, true⟩ ∨
    catchHandler0 e = ⟨400, some false, some "Invalid email message format.", none, true⟩ ∨
    catchHandler0 e = ⟨500, some false, some "Failed to send verification code", none, true⟩ := by
  by_cases h1 : (e.code == some "EAUTH") = true
  · simp [catchHandler0, h1]
  · by_cases h2 : (e.code == some "ECONNECTION") = true
    · simp [catchHandler0, h1, h2]
    · by_cases h3 : (e.code == some "EMESSAGE") = true <;> simp [catchHandler0, h1, h2, h3]

/-- C7: for every valid request whose send succeeds with a delivery receipt
carrying a message identifier, the response has status 200, `success = true`,
message "OTP sent successfully", a timestamp, and the collaborator's message
identifier. -/
theorem c7_success_response
    (b : Body) (env : Env) (year : Nat) (info : SentInfo)
    (hemail : emailRegexTest (b.to_email.getD "") = true)
    (hotp : otpRegexTest (b.otp.getD "") = true)
    (hu : strTruthy env.GMAIL_USER = true)
    (hp : strTruthy env.GMAIL_PASS = true) :
    (handler ⟨"POST", some b⟩ env year (.ok ()) (.ok info)).1
      = ⟨200, some true, some "OTP sent successfully", some info.messageId, true⟩ := by
  have hte : strTruthy b.to_email = true := by
    rw [strTruthy_iff_getD]
    intro h0
    rw [h0, emailRegexTest_empty] at hemail
    exact Bool.false_ne_true hemail
  have hto : strTruthy b.otp = true := by
    rw [strTruthy_iff_getD]
    intro h0
    rw [h0, otpRegexTest_empty] at hotp
    exact Bool.false_ne_true hotp
  simp [handler, hte, hto, hemail, hotp, hu, hp]

/-- C6: for every request that passes validation, if `GMAIL_USER` or
`GMAIL_PASS` is absent or empty, both revisions answer 500 with
`success = false` and a configuration-error message, and make no call into
the nodemailer collaborator at all (the transporter is never constructed,
verified, or asked to send: the effect trace is empty). -/
theorem c6_missing_credentials_no_dispatch
    (b : Body) (env : Env) (year : Nat)
    (vr : Except MailError Unit) (sr : Except MailError SentInfo)
    (hemail : emailRegexTest (b.to_email.getD "") = true)
    (hotp : otpRegexTest (b.otp.getD "") = true)
    (hcred : strTruthy env.GMAIL_USER = false ∨ strTruthy env.GMAIL_PASS = false) :
    handler ⟨"POST", some b⟩ env year vr sr
      = (⟨500, some false, some "Server configuration error - missing credentials", none, false⟩, [])
    ∧ handler0 ⟨"POST", some b⟩ env
      = (⟨500, some false, some "Server configuration error", none, false⟩, []) := by
  have hte : strTruthy b.to_email = true := by
    rw [strTruthy_iff_getD]
    intro h0
    rw [h0, emailRegexTest_empty] at hemail
    exact Bool.false_ne_true hemail
  have hto : strTruthy b.otp = true := by
    rw [strTruthy_iff_getD]
    intro h0
    rw [h0, otpRegexTest_empty] at hotp
    exact Bool.false_ne_true hotp
  have hguard : (!(strTruthy env.GMAIL_USER) || !(strTruthy env.GMAIL_PASS)) = true := by
    rcases hcred with h | h <;> simp [h]
  constructor
  · simp [handler, hte, hto, hemail, hotp, hguard]
  · simp [handler0, hte, hto, hemail, hotp, hguard]

lemma composeMail_type_not_password_reset (to_email otp type app_name gmailUser : String)
    (year : Nat) (h : (type == "password_reset") = false) :
    composeMail to_email otp type app_name gmailUser year
      = composeMail to_email otp "verification" app_name gmailUser year := by
  simp [composeMail, h]

/-- C9: in the `src/unnamed/part_000` revision, every valid request with
credentials configured ends in the generic 500 failure with
`success = false` and an empty effect trace, because
`nodemailer.createTransporter` does not exist and the construction step
throws before any verify or send; moreover no request whatsoever can get a
`success = true` response from that revision. -/
theorem c9_part000_always_fails
    (b : Body) (env : Env)
    (hemail : emailRegexTest (b.to_email.getD "") = true)
    (hotp : otpRegexTest (b.otp.getD "") = true)
    (hu : strTruthy env.GMAIL_USER = true)
    (hp : strTruthy env.GMAIL_PASS = true) :
    handler0 ⟨"POST", some b⟩ env
      = (⟨500, some false, some "Failed to send verification code", none, true⟩, [])
    ∧ ∀ (req : Request) (env2 : Env), (handler0 req env2).1.success ≠ some true := by
  have hte : strTruthy b.to_email = true := by
    rw [strTruthy_iff_getD]
    intro h0
    rw [h0, emailRegexTest_empty] at hemail
    exact Bool.false_ne_true hemail
  have hto : strTruthy b.otp = true := by
    rw [strTruthy_iff_getD]
    intro h0
    rw [h0, otpRegexTest_empty] at hotp
    exact Bool.false_ne_true hotp
  constructor
  · simp [handler0, hte, hto, hemail, hotp, hu, hp, catchHandler0, createTransporterError]
  · intro req env2
    rcases req with ⟨method, body⟩
    by_cases h1 : (method == "OPTIONS") = true
    · simp [handler0, h1]
    by_cases h2 : (method == "POST") = true
    case neg => simp [handler0, h1, h2]
    rcases body with _ | b2
    · simp [handler0, h1, h2, catchHandler0_success]
    by_cases h3 : (!(strTruthy b2.to_email) || !(strTruthy b2.otp)) = true
    · simp [handler0, h1, h2, h3]
    by_cases h4 : emailRegexTest (b2.to_email.getD "") = true
    case neg => simp [handler0, h1, h2, h3, h4]
    by_cases h5 : otpRegexTest (b2.otp.getD "") = true
    case neg => simp [handler0, h1, h2, h3, h4, h5]
    by_cases h6 : (!(strTruthy env2.GMAIL_USER) || !(strTruthy env2.GMAIL_PASS)) = true
    · simp [handler0, h1, h2, h3, h4, h5, h6]
    · simp [handler0, h1, h2, h3, h4, h5, h6, catchHandler0_success]

/-- C10: the handler never rejects a request because of its `type` value:
for any `type` string other than "password_reset" both revisions behave
exactly as if `type` were "verification" (responses and composed messages
included), and a request with well-formed `to_email`/`otp` is never answered
with status 400, whatever its `type`. -/
theorem c10_type_never_rejected
    (te ot an : Option String) (s : String) (env : Env) (year : Nat)
    (vr : Except MailError Unit) (sr : Except MailError SentInfo)
    (hs : s ≠ "password_reset") :
    handler ⟨"POST", some ⟨te, ot, some s, an⟩⟩ env year vr sr
      = handler ⟨"POST", some ⟨te, ot, some "verification", an⟩⟩ env year vr sr
    ∧ handler0 ⟨"POST", some ⟨te, ot, some s, an⟩⟩ env
      = handler0 ⟨"POST", some ⟨te, ot, some "verification", an⟩⟩ env
    ∧ (emailRegexTest (te.getD "") = true → otpRegexTest (ot.getD "") = true →
        (handler ⟨"POST", some ⟨te, ot, some s, an⟩⟩ env year vr sr).1.status ≠ 400) := by
  have hsb : (s == "password_reset") = false := by
    simp [hs]
  have hcm := composeMail_type_not_password_reset (te.getD "") (ot.getD "")
    s (an.getD "AJ Physics Chat") (env.GMAIL_USER.getD "") year hsb
  refine ⟨?_, ?_, ?_⟩
  · simp only [handler, Option.getD_some, hcm]
  · simp only [handler0]
  · intro hemail hotp
    have hte : strTruthy te = true := by
      rw [strTruthy_iff_getD]
      intro h0
      rw [h0, emailRegexTest_empty] at hemail
      exact Bool.false_ne_true hemail
    have hto : strTruthy ot = true := by
      rw [strTruthy_iff_getD]
      intro h0
      rw [h0, otpRegexTest_empty] at hotp
      exact Bool.false_ne_true hotp
    by_cases h6 : (!(strTruthy env.GMAIL_USER) || !(strTruthy env.GMAIL_PASS)) = true
    · simp [handler, hte, hto, hemail, hotp, h6]
    · rcases vr with ve | _
      · simp [handler, hte, hto, hemail, hotp, h6, verifyCatch_status]
      · rcases sr with e | info
        · simp [handler, hte, hto, hemail, hotp, h6, catchHandler_status]
        · simp [handler, hte, hto, hemail, hotp, h6]

/-- C3: for every POST request (with a body) whose `to_email` does not match
the pattern `[^\s@]+@[^\s@]+\.[^\s@]+` (read declaratively as
`emailPattern`), both revisions answer `success = false` with status 400;
conversely a `to_email` matching the pattern is never answered with the
e-mail-format rejection message. -/
theorem c3_email_format_validation
    (b : Body) (env : Env) (year : Nat)
    (vr : Except MailError Unit) (sr : Except MailError SentInfo) :
    (¬ emailPattern (b.to_email.getD "") →
      ((handler ⟨"POST", some b⟩ env year vr sr).1.status = 400 ∧
       (handler ⟨"POST", some b⟩ env year vr sr).1.success = some false) ∧
      ((handler0 ⟨"POST", some b⟩ env).1.status = 400 ∧
       (handler0 ⟨"POST", some b⟩ env).1.success = some false))
    ∧ (emailPattern (b.to_email.getD "") →
      (handler ⟨"POST", some b⟩ env year vr sr).1.message ≠ some "Invalid email format" ∧
      (handler0 ⟨"POST", some b⟩ env).1.message ≠ some "Invalid email format") := by
  constructor
  · intro hbad
    have hreg : emailRegexTest (b.to_email.getD "") = false := by
      cases h : emailRegexTest (b.to_email.getD "") with
      | false => rfl
      | true => exact absurd ((emailRegexTest_iff_emailPattern _).1 h) hbad
    by_cases h3 : (!(strTruthy b.to_email) || !(strTruthy b.otp)) = true
    · constructor <;> constructor <;> simp [handler, handler0, h3]
    · constructor <;> constructor <;> simp [handler, handler0, h3, hreg]
  · intro hgood
    have hreg : emailRegexTest (b.to_email.getD "") = true :=
      (emailRegexTest_iff_emailPattern _).2 hgood
    by_cases h3 : (!(strTruthy b.to_email) || !(strTruthy b.otp)) = true
    · constructor <;> simp [handler, handler0, h3]
    · by_cases h5 : otpRegexTest (b.otp.getD "") = true
      case neg => constructor <;> simp [handler, handler0, h3, hreg, h5]
      by_cases h6u : (!(strTruthy env.GMAIL_USER) || !(strTruthy env.GMAIL_PASS)) = true
      · constructor <;> simp [handler, handler0, h3, hreg, h5, h6u]
      · constructor
        · rcases vr with ve | _
          · rcases verifyCatch_message_cases ve with h | h | h <;>
              simp [handler, h3, hreg, h5, h6u, h]
          · rcases sr with e | info
            · rcases catchHandler_message_cases e with h | h | h | h | h <;>
                simp [handler, h3, hreg, h5, h6u, h]
            · simp [handler, h3, hreg, h5, h6u]
        · rcases catchHandler0_cases createTransporterError with h | h | h | h <;>
            simp [handler0, h3, hreg, h5, h6u, h]

/-- C4: for every POST request (with a body) whose `otp` is not a string of
exactly 6 ASCII decimal digits, both revisions answer `success = false` with
status 400; conversely an `otp` of exactly 6 ASCII digits is never answered
with the OTP-format rejection message. -/
theorem c4_otp_format_validation
    (b : Body) (env : Env) (year : Nat)
    (vr : Except MailError Unit) (sr : Except MailError SentInfo) :
    (¬((b.otp.getD "").data.length = 6 ∧ ∀ c ∈ (b.otp.getD "").data, c.isDigit = true) →
      ((handler ⟨"POST", some b⟩ env year vr sr).1.status = 400 ∧
       (handler ⟨"POST", some b⟩ env year vr sr).1.success = some false) ∧
      ((handler0 ⟨"POST", some b⟩ env).1.status = 400 ∧
       (handler0 ⟨"POST", some b⟩ env).1.success = some false))
    ∧ (((b.otp.getD "").data.length = 6 ∧ ∀ c ∈ (b.otp.getD "").data, c.isDigit = true) →
      (handler ⟨"POST", some b⟩ env year vr sr).1.message ≠ some "OTP must be exactly 6 digits" ∧
      (handler0 ⟨"POST", some b⟩ env).1.message ≠ some "OTP must be exactly 6 digits") := by
  constructor
  · intro hbad
    have hreg : otpRegexTest (b.otp.getD "") = false := by
      cases h : otpRegexTest (b.otp.getD "") with
      | false => rfl
      | true => exact absurd ((otpRegexTest_iff _).1 h) hbad
    by_cases h3 : (!(strTruthy b.to_email) || !(strTruthy b.otp)) = true
    · constructor <;> constructor <;> simp [handler, handler0, h3]
    · by_cases h4 : emailRegexTest (b.to_email.getD "") = true
      · constructor <;> constructor <;> simp [handler, handler0, h3, h4, hreg]
      · constructor <;> constructor <;> simp [handler, handler0, h3, h4]
  · intro hgood
    have hreg : otpRegexTest (b.otp.getD "") = true := (otpRegexTest_iff _).2 hgood
    by_cases h3 : (!(strTruthy b.to_email) || !(strTruthy b.otp)) = true
    · constructor <;> simp [handler, handler0, h3]
    · by_cases h4 : emailRegexTest (b.to_email.getD "") = true
      case neg => constructor <;> simp [handler, handler0, h3, h4]
      by_cases h6u : (!(strTruthy env.GMAIL_USER) || !(strTruthy env.GMAIL_PASS)) = true
      · constructor <;> simp [handler, handler0, h3, h4, hreg, h6u]
      · constructor
        · rcases vr with ve | _
          · rcases verifyCatch_message_cases ve with h | h | h <;>
              simp [handler, h3, h4, hreg, h6u, h]
          · rcases sr with e | info
            · rcases catchHandler_message_cases e with h | h | h | h | h <;>
                simp [handler, h3, h4, hreg, h6u, h]
            · simp [handler, h3, h4, hreg, h6u]
        · rcases catchHandler0_cases createTransporterError with h | h | h | h <;>
            simp [handler0, h3, h4, hreg, h6u, h]

/-- C1: whenever the `src/api/send-otp.js` handler makes an outbound call to
the mail collaborator (`transporter.verify` or `transporter.sendMail`), the
request body is present with `to_email` and `otp` truthy and well-formed
(`to_email` matches the e-mail regex, `otp` matches the 6-digit regex); the
`part_000` revision makes no nodemailer call on any request at all. -/
theorem c1_outbound_calls_only_after_validation
    (req : Request) (env : Env) (year : Nat)
    (vr : Except MailError Unit) (sr : Except MailError SentInfo) :
    (∀ e ∈ (handler req env year vr sr).2, isOutbound e = true →
      ∃ b, req.body = some b ∧
        strTruthy b.to_email = true ∧ strTruthy b.otp = true ∧
        emailRegexTest (b.to_email.getD "") = true ∧
        otpRegexTest (b.otp.getD "") = true)
    ∧ (handler0 req env).2 = [] := by
  rcases req with ⟨method, body⟩
  constructor
  · intro e he hout
    by_cases h1 : (method == "OPTIONS") = true
    · simp [handler, h1] at he
    by_cases h2 : (method == "POST") = true
    case neg => simp [handler, h1, h2] at he
    rcases body with _ | b
    · simp [handler, h1, h2] at he
    by_cases h3 : (!(strTruthy b.to_email) || !(strTruthy b.otp)) = true
    · simp [handler, h1, h2, h3] at he
    by_cases h4 : emailRegexTest (b.to_email.getD "") = true
    case neg => simp [handler, h1, h2, h3, h4] at he
    by_cases h5 : otpRegexTest (b.otp.getD "") = true
    case neg => simp [handler, h1, h2, h3, h4, h5] at he
    have h3' : strTruthy b.to_email = true ∧ strTruthy b.otp = true := by
      simpa [Bool.or_eq_true, Bool.not_eq_true, not_or] using h3
    exact ⟨b, rfl, h3'.1, h3'.2, h4, h5⟩
  · by_cases h1 : (method == "OPTIONS") = true
    · simp [handler0, h1]
    by_cases h2 : (method == "POST") = true
    case neg => simp [handler0, h1, h2]
    rcases body with _ | b
    · simp [handler0, h1, h2]
    by_cases h3 : (!(strTruthy b.to_email) || !(strTruthy b.otp)) = true
    · simp [handler0, h1, h2, h3]
    by_cases h4 : emailRegexTest (b.to_email.getD "") = true
    case neg => simp [handler0, h1, h2, h3, h4]
    by_cases h5 : otpRegexTest (b.otp.getD "") = true
    case neg => simp [handler0, h1, h2, h3, h4, h5]
    by_cases h6 : (!(strTruthy env.GMAIL_USER) || !(strTruthy env.GMAIL_PASS)) = true <;>
      simp [handler0, h1, h2, h3, h4, h5, h6]

/-- C5 (amended): for every POST request that carries a body in which
`to_email` or `otp` is absent or empty, both revisions answer 400 with
`success = false` and the missing-field message; a POST request carrying no
body at all instead throws in the destructuring and is answered by the
outer catch with status 500, not 400. -/
theorem c5_missing_fields_amended
    (b : Body) (env : Env) (year : Nat)
    (vr : Except MailError Unit) (sr : Except MailError SentInfo)
    (hmiss : strTruthy b.to_email = false ∨ strTruthy b.otp = false) :
    handler ⟨"POST", some b⟩ env year vr sr
      = (⟨400, some false, some "Email and OTP are required fields", none, false⟩, [])
    ∧ handler0 ⟨"POST", some b⟩ env
      = (⟨400, some false, some "Email and OTP are required fields", none, false⟩, [])
    ∧ (handler ⟨"POST", none⟩ env year vr sr).1.status = 500
    ∧ (handler0 ⟨"POST", none⟩ env).1.status = 500 := by
  have h3 : (!(strTruthy b.to_email) || !(strTruthy b.otp)) = true := by
    rcases hmiss with h | h <;> simp [h]
  refine ⟨by simp [handler, h3], by simp [handler0, h3], rfl, rfl⟩

/-- C2 counterexample: in `src/api/send-otp.js`, a dispatch failing with the
`EMESSAGE` classification is answered with the invalid-message-format text
but with status 500, not the claimed 400. -/
theorem c2_emessage_counterexample :
    (handler sampleReq sampleEnv 2025 (.ok ()) (.error emessageError)).1.status = 500
    ∧ (handler sampleReq sampleEnv 2025 (.ok ()) (.error emessageError)).1.status ≠ 400
    ∧ (handler sampleReq sampleEnv 2025 (.ok ()) (.error emessageError)).1.message
        = some "Invalid email message format."
    ∧ (handler sampleReq sampleEnv 2025 (.ok ()) (.error emessageError)).1.success
        = some false := by
  refine ⟨rfl, ?_, rfl, rfl⟩
  intro h
  have h500 : (handler sampleReq sampleEnv 2025 (.ok ()) (.error emessageError)).1.status = 500 := rfl
  rw [h500] at h
  exact absurd h (by decide)

/-- C2 (amended): for every request whose dispatch fails with the `EMESSAGE`
classification, `src/api/send-otp.js` answers `success = false` with the
message "Invalid email message format." but status 500 (its catch block
hardcodes `res.status(500)`); only the `part_000` revision's catch maps
`EMESSAGE` to status 400, and in that revision dispatch is never reached. -/
theorem c2_emessage_amended
    (req : Request) (env : Env) (year : Nat) (err : MailError) (m : MailOptions)
    (hcode : err.code = some "EMESSAGE")
    (hm : Effect.sendCall m ∈ (handler req env year (.ok ()) (.error err)).2) :
    (handler req env year (.ok ()) (.error err)).1
      = ⟨500, some false, some "Invalid email message format.", none, false⟩
    ∧ catchHandler0 err
      = ⟨400, some false, some "Invalid email message format.", none, true⟩ := by
  constructor
  · rcases req with ⟨method, body⟩
    by_cases h1 : (method == "OPTIONS") = true
    · simp [handler, h1] at hm
    by_cases h2 : (method == "POST") = true
    case neg => simp [handler, h1, h2] at hm
    rcases body with _ | b
    · simp [handler, h1, h2] at hm
    by_cases h3 : (!(strTruthy b.to_email) || !(strTruthy b.otp)) = true
    · simp [handler, h1, h2, h3] at hm
    by_cases h4 : emailRegexTest (b.to_email.getD "") = true
    case neg => simp [handler, h1, h2, h3, h4] at hm
    by_cases h5 : otpRegexTest (b.otp.getD "") = true
    case neg => simp [handler, h1, h2, h3, h4, h5] at hm
    by_cases h6 : (!(strTruthy env.GMAIL_USER) || !(strTruthy env.GMAIL_PASS)) = true
    · simp [handler, h1, h2, h3, h4, h5, h6] at hm
    · simp [handler, h1, h2, h3, h4, h5, h6, catchHandler, hcode]
  · simp [catchHandler0, hcode]

/-- C5 counterexample: a POST request carrying no body at all is answered
with status 500 (the generic catch response), not 400, by both revisions. -/
theorem c5_missing_fields_counterexample :
    (handler ⟨"POST", none⟩ sampleEnv 2025 (.ok ()) (.ok ⟨"abc123"⟩)).1.status = 500
    ∧ (handler ⟨"POST", none⟩ sampleEnv 2025 (.ok ()) (.ok ⟨"abc123"⟩)).1.status ≠ 400
    ∧ (handler ⟨"POST", none⟩ sampleEnv 2025 (.ok ()) (.ok ⟨"abc123"⟩)).1.success = some false
    ∧ (handler0 ⟨"POST", none⟩ sampleEnv).1.status = 500 := by
  refine ⟨rfl, ?_, rfl, rfl⟩
  intro h
  have h500 : (handler ⟨"POST", none⟩ sampleEnv 2025 (.ok ()) (.ok ⟨"abc123"⟩)).1.status = 500 := rfl
  rw [h500] at h
  exact absurd h (by decide)

/-- C8: message composition selects the subject wording from `type`: with
`type` absent the default "verification" applies and the subject contains
"Email Verification"; with `type = "password_reset"` the subject contains
"Password Reset"; and the `otp` string is embedded verbatim in both the
HTML and the plain-text body. -/
theorem c8_compose_message_wording
    (to_email otp : String) (typeOpt : Option String) (app_name gmailUser : String)
    (year : Nat) :
    (typeOpt = none →
      "Email Verification".data <:+:
        (composeMail to_email otp (typeOpt.getD "verification") app_name gmailUser year).subject.data)
    ∧ (typeOpt.getD "verification" = "password_reset" →
      "Password Reset".data <:+:
        (composeMail to_email otp (typeOpt.getD "verification") app_name gmailUser year).subject.data)
    ∧ otp.data <:+:
        (composeMail to_email otp (typeOpt.getD "verification") app_name gmailUser year).html.data
    ∧ otp.data <:+:
        (composeMail to_email otp (typeOpt.getD "verification") app_name gmailUser year).text.data := by
  refine ⟨?_, ?_, ?_, ?_⟩
  · intro h
    subst h
    refine ⟨(app_name ++ " - ").data, " Code".data, ?_⟩
    simp [composeMail, String.data_append,
      show (("verification" : String) == "password_reset") = false from rfl]
  · intro h
    rw [h]
    refine ⟨(app_name ++ " - ").data, " Code".data, ?_⟩
    simp [composeMail, String.data_append,
      show (("password_reset" : String) == "password_reset") = true from rfl]
  · by_cases hb : (typeOpt.getD "verification" == "password_reset") = true
    · refine ⟨(htmlBeforeOtp (app_name ++ " - " ++ "Password Reset" ++ " Code") app_name true).data,
        (htmlAfterOtp app_name true year).data, ?_⟩
      simp [composeMail, htmlContent, hb, String.data_append]
    · refine ⟨(htmlBeforeOtp (app_name ++ " - " ++ "Email Verification" ++ " Code") app_name false).data,
        (htmlAfterOtp app_name false year).data, ?_⟩
      simp [composeMail, htmlContent, hb, String.data_append]
  · by_cases hb : (typeOpt.getD "verification" == "password_reset") = true
    · refine ⟨(app_name ++ "\n\n" ++ "Password Reset" ++ "\n\nYour verification code: ").data,
        ("\n\nThis code expires in 5 minutes.\n\n" ++ "If you didn\x27t request this, ignore this email."
          ++ "\n\n© " ++ toString year ++ " " ++ app_name).data, ?_⟩
      simp [composeMail, hb, String.data_append]
    · refine ⟨(app_name ++ "\n\n" ++ "Email Verification" ++ "\n\nYour verification code: ").data,
        ("\n\nThis code expires in 5 minutes.\n\n" ++ "If you didn\x27t sign up, ignore this email."
          ++ "\n\n© " ++ toString year ++ " " ++ app_name).data, ?_⟩
      simp [composeMail, hb, String.data_append]

/-- Witness for C1 at a concrete request whose `verify` call fails. -/
theorem c1_outbound_calls_only_after_validation_witness :
    ∃ b, sampleReq.body = some b ∧
      strTruthy b.to_email = true ∧ strTruthy b.otp = true ∧
      emailRegexTest (b.to_email.getD "") = true ∧
      otpRegexTest (b.otp.getD "") = true :=
  (c1_outbound_calls_only_after_validation sampleReq sampleEnv 2025
      (.error ⟨some "EAUTH", "auth failed"⟩) (.ok ⟨"abc123"⟩)).1
    Effect.verifyCall
    (by
      rw [show (handler sampleReq sampleEnv 2025
          (.error ⟨some "EAUTH", "auth failed"⟩) (.ok ⟨"abc123"⟩)).2
        = [Effect.createTransportCall, Effect.verifyCall] from rfl]
      exact List.mem_cons_of_mem _ (List.mem_cons_self _ _))
    rfl

/-- Witness for the amended C2 at a concrete dispatch failing with `EMESSAGE`. -/
theorem c2_emessage_amended_witness :
    (handler sampleReq sampleEnv 2025 (.ok ()) (.error emessageError)).1
      = ⟨500, some false, some "Invalid email message format.", none, false⟩
    ∧ catchHandler0 emessageError
      = ⟨400, some false, some "Invalid email message format.", none, true⟩ :=
  c2_emessage_amended sampleReq sampleEnv 2025 emessageError sampleMail rfl
    (by
      rw [show (handler sampleReq sampleEnv 2025 (.ok ()) (.error emessageError)).2
        = [Effect.createTransportCall, Effect.verifyCall, Effect.sendCall sampleMail] from rfl]
      exact List.mem_cons_of_mem _ (List.mem_cons_of_mem _ (List.mem_cons_self _ _)))

/-- Witness for C3: `to_email = "abc"` is rejected with 400 and
`to_email = "user@example.com"` is not rejected for e-mail format. -/
theorem c3_email_format_validation_witness :
    (((handler ⟨"POST", some ⟨some "abc", some "123456", none, none⟩⟩ sampleEnv 2025
        (.ok ()) (.ok ⟨"abc123"⟩)).1.status = 400 ∧
      (handler ⟨"POST", some ⟨some "abc", some "123456", none, none⟩⟩ sampleEnv 2025
        (.ok ()) (.ok ⟨"abc123"⟩)).1.success = some false) ∧
     ((handler0 ⟨"POST", some ⟨some "abc", some "123456", none, none⟩⟩ sampleEnv).1.status = 400 ∧
      (handler0 ⟨"POST", some ⟨some "abc", some "123456", none, none⟩⟩ sampleEnv).1.success = some false))
    ∧ ((handler ⟨"POST", some sampleBody⟩ sampleEnv 2025 (.ok ()) (.ok ⟨"abc123"⟩)).1.message
        ≠ some "Invalid email format" ∧
       (handler0 ⟨"POST", some sampleBody⟩ sampleEnv).1.message ≠ some "Invalid email format") :=
  ⟨(c3_email_format_validation ⟨some "abc", some "123456", none, none⟩ sampleEnv 2025
      (.ok ()) (.ok ⟨"abc123"⟩)).1
      (fun hp => absurd ((emailRegexTest_iff_emailPattern _).2 hp) (by decide)),
   (c3_email_format_validation sampleBody sampleEnv 2025 (.ok ()) (.ok ⟨"abc123"⟩)).2
      ((emailRegexTest_iff_emailPattern _).1 (by decide))⟩

/-- Witness for C4: `otp = "12345"` is rejected with 400 and `otp = "123456"`
is not rejected for OTP format. -/
theorem c4_otp_format_validation_witness :
    (((handler ⟨"POST", some ⟨some "user@example.com", some "12345", none, none⟩⟩ sampleEnv 2025
        (.ok ()) (.ok ⟨"abc123"⟩)).1.status = 400 ∧
      (handler ⟨"POST", some ⟨some "user@example.com", some "12345", none, none⟩⟩ sampleEnv 2025
        (.ok ()) (.ok ⟨"abc123"⟩)).1.success = some false) ∧
     ((handler0 ⟨"POST", some ⟨some "user@example.com", some "12345", none, none⟩⟩ sampleEnv).1.status = 400 ∧
      (handler0 ⟨"POST", some ⟨some "user@example.com", some "12345", none, none⟩⟩ sampleEnv).1.success = some false))
    ∧ ((handler ⟨"POST", some sampleBody⟩ sampleEnv 2025 (.ok ()) (.ok ⟨"abc123"⟩)).1.message
        ≠ some "OTP must be exactly 6 digits" ∧
       (handler0 ⟨"POST", some sampleBody⟩ sampleEnv).1.message ≠ some "OTP must be exactly 6 digits") :=
  ⟨(c4_otp_format_validation ⟨some "user@example.com", some "12345", none, none⟩ sampleEnv 2025
      (.ok ()) (.ok ⟨"abc123"⟩)).1 (by decide),
   (c4_otp_format_validation sampleBody sampleEnv 2025 (.ok ()) (.ok ⟨"abc123"⟩)).2 (by decide)⟩

/-- Witness for the amended C5 at a request whose `otp` field is absent. -/
theorem c5_missing_fields_amended_witness :
    handler ⟨"POST", some ⟨some "user@example.com", none, none, none⟩⟩ sampleEnv 2025
        (.ok ()) (.ok ⟨"abc123"⟩)
      = (⟨400, some false, some "Email and OTP are required fields", none, false⟩, [])
    ∧ handler0 ⟨"POST", some ⟨some "user@example.com", none, none, none⟩⟩ sampleEnv
      = (⟨400, some false, some "Email and OTP are required fields", none, false⟩, [])
    ∧ (handler ⟨"POST", none⟩ sampleEnv 2025 (.ok ()) (.ok ⟨"abc123"⟩)).1.status = 500
    ∧ (handler0 ⟨"POST", none⟩ sampleEnv).1.status = 500 :=
  c5_missing_fields_amended ⟨some "user@example.com", none, none, none⟩ sampleEnv 2025
    (.ok ()) (.ok ⟨"abc123"⟩) (Or.inr rfl)

/-- Witness for C6 at an environment missing `GMAIL_USER`. -/
theorem c6_missing_credentials_no_dispatch_witness :
    handler ⟨"POST", some sampleBody⟩ ⟨none, some "app-password"⟩ 2025
        (.ok ()) (.ok ⟨"abc123"⟩)
      = (⟨500, some false, some "Server configuration error - missing credentials", none, false⟩, [])
    ∧ handler0 ⟨"POST", some sampleBody⟩ ⟨none, some "app-password"⟩
      = (⟨500, some false, some "Server configuration error", none, false⟩, []) :=
  c6_missing_credentials_no_dispatch sampleBody ⟨none, some "app-password"⟩ 2025
    (.ok ()) (.ok ⟨"abc123"⟩) (by decide) (by decide) (Or.inl rfl)

/-- Witness for C7 at a send that succeeds with `message_id = "abc123"`. -/
theorem c7_success_response_witness :
    (handler ⟨"POST", some sampleBody⟩ sampleEnv 2025 (.ok ()) (.ok ⟨"abc123"⟩)).1
      = ⟨200, some true, some "OTP sent successfully", some "abc123", true⟩ :=
  c7_success_response sampleBody sampleEnv 2025 ⟨"abc123"⟩
    (by decide) (by decide) (by decide) (by decide)

/-- Witness for C8 at the two scenarios of the specification. -/
theorem c8_compose_message_wording_witness :
    ("Email Verification".data <:+:
      (composeMail "user@example.com" "123456" ((none : Option String).getD "verification")
        "AJ Physics Chat" "sender@gmail.com" 2025).subject.data)
    ∧ ("Password Reset".data <:+:
      (composeMail "user@example.com" "654321" ((some "password_reset" : Option String).getD "verification")
        "AJ Physics Chat" "sender@gmail.com" 2025).subject.data)
    ∧ ("123456".data <:+:
      (composeMail "user@example.com" "123456" ((none : Option String).getD "verification")
        "AJ Physics Chat" "sender@gmail.com" 2025).html.data)
    ∧ ("123456".data <:+:
      (composeMail "user@example.com" "123456" ((none : Option String).getD "verification")
        "AJ Physics Chat" "sender@gmail.com" 2025).text.data) :=
  ⟨(c8_compose_message_wording "user@example.com" "123456" none "AJ Physics Chat"
      "sender@gmail.com" 2025).1 rfl,
   (c8_compose_message_wording "user@example.com" "654321" (some "password_reset")
      "AJ Physics Chat" "sender@gmail.com" 2025).2.1 rfl,
   (c8_compose_message_wording "user@example.com" "123456" none "AJ Physics Chat"
      "sender@gmail.com" 2025).2.2.1,
   (c8_compose_message_wording "user@example.com" "123456" none "AJ Physics Chat"
      "sender@gmail.com" 2025).2.2.2⟩

/-- Witness for C9 at a concrete valid request with credentials configured. -/
theorem c9_part000_always_fails_witness :
    handler0 ⟨"POST", some sampleBody⟩ sampleEnv
      = (⟨500, some false, some "Failed to send verification code", none, true⟩, [])
    ∧ (handler0 sampleReq sampleEnv).1.success ≠ some true :=
  ⟨(c9_part000_always_fails sampleBody sampleEnv (by decide) (by decide)
      (by decide) (by decide)).1,
   (c9_part000_always_fails sampleBody sampleEnv (by decide) (by decide)
      (by decide) (by decide)).2 sampleReq sampleEnv⟩

/-- Witness for C10 at `type = "foo"`. -/
theorem c10_type_never_rejected_witness :
    handler ⟨"POST", some ⟨some "user@example.com", some "123456", some "foo", none⟩⟩
        sampleEnv 2025 (.ok ()) (.ok ⟨"abc123"⟩)
      = handler ⟨"POST", some ⟨some "user@example.com", some "123456", some "verification", none⟩⟩
        sampleEnv 2025 (.ok ()) (.ok ⟨"abc123"⟩)
    ∧ handler0 ⟨"POST", some ⟨some "user@example.com", some "123456", some "foo", none⟩⟩ sampleEnv
      = handler0 ⟨"POST", some ⟨some "user@example.com", some "123456", some "verification", none⟩⟩ sampleEnv
    ∧ (handler ⟨"POST", some ⟨some "user@example.com", some "123456", some "foo", none⟩⟩
        sampleEnv 2025 (.ok ()) (.ok ⟨"abc123"⟩)).1.status ≠ 400 :=
  ⟨(c10_type_never_rejected (some "user@example.com") (some "123456") none "foo"
      sampleEnv 2025 (.ok ()) (.ok ⟨"abc123"⟩) (by decide)).1,
   (c10_type_never_rejected (some "user@example.com") (some "123456") none "foo"
      sampleEnv 2025 (.ok ()) (.ok ⟨"abc123"⟩) (by decide)).2.1,
   (c10_type_never_rejected (some "user@example.com") (some "123456") none "foo"
      sampleEnv 2025 (.ok ()) (.ok ⟨"abc123"⟩) (by decide)).2.2 (by decide) (by decide)⟩

end AjPhysicsOtp
